import Mathlib

/-!
Verification of the clipboard-to-ComfyUI automation script
(`src/clipboard.py`) against its natural-language specification.

The script is a single-threaded poll-detect-dispatch loop.  We embed its
pure logic shallowly:

* clipboard probes (`get_clipboard_image` / `get_clipboard_text`) are
  modelled by `Option` inputs to each poll (an image is represented by its
  raw pixel byte string, a text by its string value);
* the MD5 fingerprint (`get_image_hash`) is an arbitrary parameter
  `md5 : String → String`, since every property of interest depends only
  on equality of fingerprints, never on the digest algorithm;
* the on-disk JSON workflow template is modelled by an association list of
  node ids to node data, and the fallible `open`/`json.load` at the top of
  `create_api_prompt` by an `Except PyErr Template` input;
* observable actions (probing, saving the image file, logging the
  missing-node warning, submitting to the HTTP API) are recorded as an
  event list, and an uncaught Python exception as an `Except.error`.
-/

set_option autoImplicit false

deriving instance DecidableEq for Except

namespace Clipboard

/-- A Python exception that can escape the per-tick logic.  `json.load` /
`open` failures inside `create_api_prompt` become `templateReadError`;
an external interrupt becomes `keyboardInterrupt`. -/
inductive PyErr where
  | templateReadError
  | keyboardInterrupt
deriving DecidableEq, Repr

/-- One node value of the workflow-template JSON object, restricted to the
fields the script reads or writes: `node_data.get("_meta", {}).get("title")`
(`none` when `_meta` or `title` is absent), `class_type`, and the `inputs`
mapping.  A JSON value that is not an object (the `isinstance(node_data,
dict)` check on line 92) is `nonDict`. -/
inductive NodeData where
  | dict (title : Option String) (class_type : Option String)
         (inputs : List (String × String))
  | nonDict
deriving DecidableEq, Repr

/-- The workflow template: the JSON object mapping node ids to nodes,
in iteration order. -/
abbrev Template := List (String × NodeData)

/-- `node_data.get("_meta", {}).get("title")` combined with the
`isinstance(node_data, dict)` guard: a non-dict value has no title. -/
def NodeData.metaTitle : NodeData → Option String
  | .dict t _ _ => t
  | .nonDict => none

/-- Python dict assignment `inputs[key] = value` on the inputs mapping:
replace in place when the key exists, append otherwise. -/
def setInput : List (String × String) → String → String → List (String × String)
  | [], k, v => [(k, v)]
  | (k', v') :: rest, k, v =>
      if k' = k then (k, v) :: rest else (k', v') :: setInput rest k v

/-- Lookup in an inputs mapping (first binding wins, as in a dict). -/
def getInput : List (String × String) → String → Option String
  | [], _ => none
  | (k', v') :: rest, k => if k' = k then some v' else getInput rest k

/-- `prompt[node_id]["inputs"][target_input] = new_value` applied to a
matched node. -/
def NodeData.patchInput : NodeData → String → String → NodeData
  | .dict t ct ins, k, v => .dict t ct (setInput ins k v)
  | .nonDict, _, _ => .nonDict

/-- The `for node_id, node_data in prompt.items(): ... break` loop of
`create_api_prompt` (lines 91-96): patch the first node whose `_meta.title`
equals the target title, leave everything after the `break` untouched.
Returns the resulting template and the `node_found` flag. -/
def patchNodes (target_title target_input new_value : String) :
    Template → Template × Bool
  | [] => ([], false)
  | (nid, nd) :: rest =>
      if nd.metaTitle = some target_title then
        ((nid, nd.patchInput target_input new_value) :: rest, true)
      else
        let r := patchNodes target_title target_input new_value rest
        ((nid, nd) :: r.1, r.2)

/-- Which content kind is being dispatched (`content_type` argument). -/
inductive ContentType where
  | image
  | text
deriving DecidableEq, Repr

/-- `Path.name` of pathlib for a path without trailing separators: the
final component, i.e. everything after the last `/` or `\`. -/
def pathName (s : String) : String :=
  String.mk ((s.data.reverse.takeWhile (fun c => !(c = '/' || c = '\\'))).reverse)

/-- Python `str.replace("\\", "/")`. -/
def pyReplaceBackslash (s : String) : String :=
  String.mk (s.data.map (fun c => if c = '\\' then '/' else c))

/-- `INPUT_DIR.name` where `INPUT_DIR = COMFY_DIR / "input" / "clipboard_images"`. -/
def INPUT_DIR_name : String := "clipboard_images"

/-- The sentinel `target_title` chosen by `create_api_prompt`. -/
def targetTitleOf : ContentType → String
  | .image => "load_clipboard_image"
  | .text => "load_clipboard_text"

/-- The `target_input` key chosen by `create_api_prompt`. -/
def targetInputOf : ContentType → String
  | .image => "image"
  | .text => "text"

/-- The `new_value` computed by `create_api_prompt`: for an image,
`f"{INPUT_DIR.name}/{image_path.name}".replace("\\", "/")`; for text, the
content verbatim. -/
def newValueOf (content : String) : ContentType → String
  | .image => pyReplaceBackslash (INPUT_DIR_name ++ "/" ++ pathName content)
  | .text => content

/-- The request body `{"prompt": prompt, "client_id": "clipboard_script"}`. -/
structure Payload where
  prompt : Template
  client_id : String
deriving DecidableEq, Repr

/-- `create_api_prompt(content, content_type)`.  The first argument is the
outcome of `open(WORKFLOW_TEMPLATE)` / `json.load` (which the source does
not guard, so a failure propagates as the exception).  Besides the payload
we return the `node_found` flag, which drives the missing-node warning. -/
def create_api_prompt (tmpl : Except PyErr Template) (content : String)
    (content_type : ContentType) : Except PyErr (Payload × Bool) :=
  match tmpl with
  | .error e => .error e
  | .ok prompt =>
      let r := patchNodes (targetTitleOf content_type) (targetInputOf content_type)
        (newValueOf content content_type) prompt
      .ok ({ prompt := r.1, client_id := "clipboard_script" }, r.2)

/-- The global duplicate-checking state (lines 27-29 of the source). -/
structure DetectionState where
  last_image_hash : Option String
  last_text_content : Option String
deriving DecidableEq, Repr

/-- The state at process start: both trackers are `None`. -/
def initState : DetectionState :=
  { last_image_hash := none, last_text_content := none }

/-- Observable actions of one tick of `process_clipboard`:
reading the clipboard image / text, saving a new image under
`INPUT_DIR`, logging the missing-node warning, submitting the payload via
`send_to_api`, and resetting the trackers. -/
inductive Event where
  | probeImage
  | probeText
  | saveImage (path : String)
  | warnNodeNotFound (title : String)
  | dispatch (payload : Payload)
  | resetTrackers
deriving DecidableEq, Repr

/-- Python character class for `str.strip()` / `str.isspace()` on the
ASCII whitespace characters. -/
def pyIsSpace (c : Char) : Bool :=
  c = ' ' || c = '\t' || c = '\n' || c = '\r' || c = '\x0b' || c = '\x0c'

/-- Python `str.strip()`: remove leading and trailing whitespace. -/
def pyStrip (s : String) : String :=
  String.mk (((s.data.dropWhile pyIsSpace).reverse.dropWhile pyIsSpace).reverse)

/-- Truthiness of `text and text.strip()` (line 133). -/
def textTruthy (t : String) : Bool :=
  decide (t ≠ "") && decide (pyStrip t ≠ "")

/-- `INPUT_DIR / f"clipboard_{int(time.time())}.png"` as a Windows path
string. -/
def imageSavePath (ts : Nat) : String :=
  "D:\\ComfyUI_windows_portable\\ComfyUI\\input\\clipboard_images\\clipboard_"
    ++ toString ts ++ ".png"

/-- Lines 146-150: if the clipboard is empty (or holds only untruthy
text), reset the trackers when either one is set. -/
def resetStep (st : DetectionState) :
    Except PyErr (DetectionState × List Event) :=
  if st.last_image_hash.isSome || st.last_text_content.isSome then
    .ok ({ last_image_hash := none, last_text_content := none },
         [.probeImage, .probeText, .resetTrackers])
  else
    .ok (st, [.probeImage, .probeText])

/-- One call of `process_clipboard()`.  `image` is the outcome of
`get_clipboard_image()` (the raw pixel bytes when an image is present),
`text` the outcome of `get_clipboard_text()`, `tmpl` the outcome of reading
the workflow template (consulted only when a dispatch happens), `ts` the
`int(time.time())` stamp, and `st` the global state on entry.  The result
is the new global state plus the events of the tick, or the uncaught
exception. -/
def process_clipboard (md5 : String → String) (image : Option String)
    (text : Option String) (tmpl : Except PyErr Template) (ts : Nat)
    (st : DetectionState) : Except PyErr (DetectionState × List Event) :=
  match image with
  | some img =>
      let current_hash := md5 img
      if st.last_image_hash = some current_hash then
        .ok (st, [.probeImage])
      else
        let st1 : DetectionState :=
          { last_image_hash := some current_hash, last_text_content := none }
        let image_path := imageSavePath ts
        match create_api_prompt tmpl image_path .image with
        | .error e => .error e
        | .ok (payload, found) =>
            .ok (st1, [.probeImage, .saveImage image_path] ++
              (if found then [] else [.warnNodeNotFound "load_clipboard_image"]) ++
              [.dispatch payload])
  | none =>
      match text with
      | some t =>
          if textTruthy t then
            if st.last_text_content = some t then
              .ok (st, [.probeImage, .probeText])
            else
              let st1 : DetectionState :=
                { last_image_hash := none, last_text_content := some t }
              match create_api_prompt tmpl t .text with
              | .error e => .error e
              | .ok (payload, found) =>
                  .ok (st1, [.probeImage, .probeText] ++
                    (if found then []
                     else [.warnNodeNotFound "load_clipboard_text"]) ++
                    [.dispatch payload])
          else
            resetStep st
      | none => resetStep st

/-- Is this event a submission to the API? -/
def Event.isDispatch : Event → Bool
  | .dispatch _ => true
  | _ => false

/-- Number of API submissions among the events of a tick. -/
def countDispatch (evs : List Event) : Nat :=
  (evs.filter Event.isDispatch).length

/-- The events of a tick outcome (none when an exception escaped). -/
def resultEvents : Except PyErr (DetectionState × List Event) → List Event
  | .ok (_, evs) => evs
  | .error _ => []

/-- The inputs one loop iteration of `main` consumes from the outside
world. -/
structure TickInput where
  image : Option String
  text : Option String
  tmpl : Except PyErr Template
  ts : Nat

/-- How a (finite prefix of the) `while True` loop in `main` ends. -/
inductive RunOutcome where
  | completedTicks (st : DetectionState)
  | stoppedByUser
  | crashed (e : PyErr)
deriving DecidableEq, Repr

/-- The `try: while True: process_clipboard(); sleep(1) except
KeyboardInterrupt` loop of `main`, run on a finite list of tick inputs.
Only `KeyboardInterrupt` is caught; any other exception escaping
`process_clipboard` terminates the process. -/
def runLoop (md5 : String → String) :
    List TickInput → DetectionState → RunOutcome
  | [], st => .completedTicks st
  | tick :: rest, st =>
      match process_clipboard md5 tick.image tick.text tick.tmpl tick.ts st with
      | .error e =>
          if e = .keyboardInterrupt then .stoppedByUser else .crashed e
      | .ok (st1, _) => runLoop md5 rest st1

/-! ### Helper lemmas -/

/-- If no node of the template carries the target title, the patching loop
returns the template unchanged with `node_found = false`. -/
theorem patchNodes_of_no_match (tt ti nv : String) (T : Template)
    (hT : ∀ e ∈ T, NodeData.metaTitle e.2 ≠ some tt) :
    patchNodes tt ti nv T = (T, false) := by
  induction T with
  | nil => rfl
  | cons e rest ih =>
      obtain ⟨nid, nd⟩ := e
      have hnd : nd.metaTitle ≠ some tt := hT (nid, nd) (List.mem_cons_self _ _)
      have hrest : ∀ e ∈ rest, NodeData.metaTitle e.2 ≠ some tt :=
        fun e he => hT e (List.mem_cons_of_mem _ he)
      simp [patchNodes, hnd, ih hrest]

/-- The patching loop patches exactly the first node carrying the target
title and leaves every node before and after it unchanged. -/
theorem patchNodes_first_match (tt ti nv : String) (pre : Template)
    (nid : String) (nd : NodeData) (post : Template)
    (hpre : ∀ e ∈ pre, NodeData.metaTitle e.2 ≠ some tt)
    (hnd : nd.metaTitle = some tt) :
    patchNodes tt ti nv (pre ++ (nid, nd) :: post)
      = (pre ++ (nid, nd.patchInput ti nv) :: post, true) := by
  induction pre with
  | nil => simp [patchNodes, hnd]
  | cons e pre ih =>
      obtain ⟨nid', nd'⟩ := e
      have hnd' : nd'.metaTitle ≠ some tt := hpre (nid', nd') (List.mem_cons_self _ _)
      have hpre' : ∀ e ∈ pre, NodeData.metaTitle e.2 ≠ some tt :=
        fun e he => hpre e (List.mem_cons_of_mem _ he)
      simp [patchNodes, hnd', ih hpre']

/-- After `inputs[k] = v`, looking up `k` yields `v`. -/
theorem getInput_setInput (ins : List (String × String)) (k v : String) :
    getInput (setInput ins k v) k = some v := by
  induction ins with
  | nil => simp [setInput, getInput]
  | cons p rest ih =>
      obtain ⟨k', v'⟩ := p
      by_cases h : k' = k
      · simp [setInput, getInput, h]
      · simp [setInput, getInput, h, ih]

/-- A string made of whitespace only is untruthy after `strip()`. -/
theorem textTruthy_of_all_space (s : String)
    (h : ∀ c ∈ s.data, pyIsSpace c = true) :
    textTruthy s = false := by
  have h1 : s.data.dropWhile pyIsSpace = [] :=
    List.dropWhile_eq_nil_iff.mpr h
  have h2 : pyStrip s = "" := by
    simp [pyStrip, h1]
  simp [textTruthy, h2]

/-- A tick holding an image whose fingerprint differs from the stored one:
the state is overwritten, the image is saved, and a dispatch is attempted
with the patched template. -/
theorem process_clipboard_new_image (md5 : String → String) (img : String)
    (txt : Option String) (T : Template) (ts : Nat) (st : DetectionState)
    (hnew : st.last_image_hash ≠ some (md5 img)) :
    process_clipboard md5 (some img) txt (.ok T) ts st
      = .ok ({ last_image_hash := some (md5 img), last_text_content := none },
          [.probeImage, .saveImage (imageSavePath ts)] ++
          (if (patchNodes "load_clipboard_image" "image"
                (newValueOf (imageSavePath ts) .image) T).2 then []
           else [.warnNodeNotFound "load_clipboard_image"]) ++
          [.dispatch ⟨(patchNodes "load_clipboard_image" "image"
                (newValueOf (imageSavePath ts) .image) T).1,
              "clipboard_script"⟩]) := by
  simp [process_clipboard, hnew, create_api_prompt, targetTitleOf, targetInputOf]

/-- A tick holding an image with the fingerprint already stored: nothing
happens beyond the probe. -/
theorem process_clipboard_same_image (md5 : String → String) (img : String)
    (txt : Option String) (tmpl : Except PyErr Template) (ts : Nat)
    (st : DetectionState) (hsame : st.last_image_hash = some (md5 img)) :
    process_clipboard md5 (some img) txt tmpl ts st = .ok (st, [.probeImage]) := by
  simp [process_clipboard, hsame]

/-- A tick with no image and truthy text different from the stored one:
the state is overwritten and a dispatch is attempted. -/
theorem process_clipboard_new_text (md5 : String → String) (t : String)
    (T : Template) (ts : Nat) (st : DetectionState)
    (htt : textTruthy t = true) (hnew : st.last_text_content ≠ some t) :
    process_clipboard md5 none (some t) (.ok T) ts st
      = .ok ({ last_image_hash := none, last_text_content := some t },
          [.probeImage, .probeText] ++
          (if (patchNodes "load_clipboard_text" "text" t T).2 then []
           else [.warnNodeNotFound "load_clipboard_text"]) ++
          [.dispatch ⟨(patchNodes "load_clipboard_text" "text" t T).1,
              "clipboard_script"⟩]) := by
  simp [process_clipboard, htt, hnew, create_api_prompt, targetTitleOf,
    targetInputOf, newValueOf]

/-- A tick with no image and no truthy text ends with both trackers null
and performs no dispatch, whatever the prior state was. -/
theorem process_clipboard_empty (md5 : String → String) (text : Option String)
    (tmpl : Except PyErr Template) (ts : Nat) (st : DetectionState)
    (hE : ∀ t, text = some t → textTruthy t = false) :
    ∃ evs, process_clipboard md5 none text tmpl ts st
      = .ok ({ last_image_hash := none, last_text_content := none }, evs)
      ∧ countDispatch evs = 0 := by
  obtain ⟨lih, ltc⟩ := st
  have hreset : ∃ evs,
      resetStep { last_image_hash := lih, last_text_content := ltc }
        = .ok ({ last_image_hash := none, last_text_content := none }, evs)
      ∧ countDispatch evs = 0 := by
    cases lih <;> cases ltc <;>
      exact ⟨_, rfl, rfl⟩
  cases text with
  | none => simpa [process_clipboard] using hreset
  | some t =>
      have ht : textTruthy t = false := hE t rfl
      simpa [process_clipboard, ht] using hreset

/-! ### Claims -/

/-- Claim C4: if two consecutive polls yield an image with an identical
fingerprint, the second poll performs no dispatch; the same image content
twice in a row triggers exactly one dispatch (lines 111-115 of the
source). -/
theorem same_image_twice_one_dispatch (md5 : String → String) (img : String)
    (T : Template) (txt1 txt2 : Option String) (ts1 ts2 : Nat)
    (st : DetectionState) (hnew : st.last_image_hash ≠ some (md5 img)) :
    ∃ st1 evs1 evs2,
      process_clipboard md5 (some img) txt1 (.ok T) ts1 st = .ok (st1, evs1)
      ∧ process_clipboard md5 (some img) txt2 (.ok T) ts2 st1 = .ok (st1, evs2)
      ∧ countDispatch evs1 = 1 ∧ countDispatch evs2 = 0 := by
  refine ⟨_, _, _, process_clipboard_new_image md5 img txt1 T ts1 st hnew,
    process_clipboard_same_image md5 img txt2 (.ok T) ts2 _ rfl, ?_, ?_⟩
  · cases hb : (patchNodes "load_clipboard_image" "image"
        (newValueOf (imageSavePath ts1) .image) T).2 <;>
      simp [hb, countDispatch, Event.isDispatch]
  · simp [countDispatch, Event.isDispatch]

/-- Claim C4 witness: a concrete two-poll run with the same image. -/
theorem same_image_twice_one_dispatch_witness :
    ∃ st1 evs1 evs2,
      process_clipboard (fun b => b) (some "pix") none (.ok []) 3 initState
        = .ok (st1, evs1)
      ∧ process_clipboard (fun b => b) (some "pix") none (.ok []) 4 st1
        = .ok (st1, evs2)
      ∧ countDispatch evs1 = 1 ∧ countDispatch evs2 = 0 :=
  same_image_twice_one_dispatch (fun b => b) "pix" [] none none 3 4 initState
    (by decide)

/-- Claim C5: when an image is present, the tick is entirely independent of
the text on the clipboard, and the text probe (`get_clipboard_text`) is
never exercised. -/
theorem image_priority_over_text (md5 : String → String) (img : String)
    (txt : Option String) (tmpl : Except PyErr Template) (ts : Nat)
    (st : DetectionState) :
    process_clipboard md5 (some img) txt tmpl ts st
      = process_clipboard md5 (some img) none tmpl ts st
    ∧ Event.probeText ∉
        resultEvents (process_clipboard md5 (some img) txt tmpl ts st) := by
  refine ⟨rfl, ?_⟩
  by_cases hh : st.last_image_hash = some (md5 img)
  · simp [process_clipboard, hh, resultEvents]
  · cases tmpl with
    | error e => simp [process_clipboard, hh, create_api_prompt, resultEvents]
    | ok T =>
        rw [process_clipboard_new_image md5 img txt T ts st hh]
        cases hb : (patchNodes "load_clipboard_image" "image"
            (newValueOf (imageSavePath ts) .image) T).2 <;>
          simp [hb, resultEvents]

/-- Claim C5 witness: concrete poll with both an image and text present. -/
theorem image_priority_over_text_witness :
    process_clipboard (fun b => b) (some "w") (some "hello") (.ok []) 1 initState
      = process_clipboard (fun b => b) (some "w") none (.ok []) 1 initState
    ∧ Event.probeText ∉ resultEvents
        (process_clipboard (fun b => b) (some "w") (some "hello") (.ok []) 1
          initState) :=
  image_priority_over_text (fun b => b) "w" (some "hello") (.ok []) 1 initState

/-- Claim C7: a whitespace-only text snapshot is classified Empty: no
dispatch occurs and both trackers end up null (cleared when one was set,
unchanged when both were already null). -/
theorem whitespace_text_classified_empty (md5 : String → String) (s : String)
    (hs : ∀ c ∈ s.data, pyIsSpace c = true) (tmpl : Except PyErr Template)
    (ts : Nat) (st : DetectionState) :
    ∃ evs, process_clipboard md5 none (some s) tmpl ts st
      = .ok ({ last_image_hash := none, last_text_content := none }, evs)
      ∧ countDispatch evs = 0 :=
  process_clipboard_empty md5 (some s) tmpl ts st
    (fun t ht => by cases ht; exact textTruthy_of_all_space s hs)

/-- Claim C7 witness: the literal text `"   "` on a state with a stored
image fingerprint. -/
theorem whitespace_text_classified_empty_witness :
    ∃ evs, process_clipboard (fun b => b) none (some "   ") (.ok []) 2
        { last_image_hash := some "h", last_text_content := none }
      = .ok ({ last_image_hash := none, last_text_content := none }, evs)
      ∧ countDispatch evs = 0 :=
  whitespace_text_classified_empty (fun b => b) "   " (by decide) (.ok []) 2
    { last_image_hash := some "h", last_text_content := none }

/-- Claim C8: patching a template that contains a node titled
`load_clipboard_image` with a new image path whose basename is
`clipboard_123.png` sets that node's `inputs.image` to
`clipboard_images/clipboard_123.png` (forward slashes, relative to the
engine input directory) and leaves every other node unchanged. -/
theorem image_patch_scenario (path : String)
    (hpath : pathName path = "clipboard_123.png")
    (pre post : Template) (nid : String) (ct : Option String)
    (ins : List (String × String))
    (hpre : ∀ e ∈ pre, NodeData.metaTitle e.2 ≠ some "load_clipboard_image") :
    ∃ ins2,
      create_api_prompt
          (.ok (pre ++ (nid, .dict (some "load_clipboard_image") ct ins) :: post))
          path .image
        = .ok (⟨pre ++ (nid, .dict (some "load_clipboard_image") ct ins2) :: post,
            "clipboard_script"⟩, true)
      ∧ getInput ins2 "image" = some "clipboard_images/clipboard_123.png" := by
  have hval : newValueOf path .image = "clipboard_images/clipboard_123.png" := by
    rw [show newValueOf path ContentType.image
        = pyReplaceBackslash (INPUT_DIR_name ++ "/" ++ pathName path) from rfl,
      hpath]
    decide
  refine ⟨setInput ins "image" "clipboard_images/clipboard_123.png", ?_,
    getInput_setInput ins _ _⟩
  have h := patchNodes_first_match "load_clipboard_image" "image"
    "clipboard_images/clipboard_123.png" pre nid
    (.dict (some "load_clipboard_image") ct ins) post hpre rfl
  simp [create_api_prompt, targetTitleOf, targetInputOf, hval, h,
    NodeData.patchInput]

/-- Claim C8 witness: the spec's template patch scenario, with a second
node `"8"` that stays untouched. -/
theorem image_patch_scenario_witness :
    ∃ ins2,
      create_api_prompt
          (.ok ([("5", .dict (some "sampler") (some "KSampler") [("seed", "1")])] ++
            ("7", .dict (some "load_clipboard_image") (some "LoadImage")
              [("image", "old.png")]) ::
            [("8", .dict (some "save") (some "SaveImage") [("filename", "out")])]))
          "D:\\ComfyUI_windows_portable\\ComfyUI\\input\\clipboard_images\\clipboard_123.png"
          .image
        = .ok (⟨[("5", .dict (some "sampler") (some "KSampler") [("seed", "1")])] ++
            ("7", .dict (some "load_clipboard_image") (some "LoadImage") ins2) ::
            [("8", .dict (some "save") (some "SaveImage") [("filename", "out")])],
            "clipboard_script"⟩, true)
      ∧ getInput ins2 "image" = some "clipboard_images/clipboard_123.png" :=
  image_patch_scenario
    "D:\\ComfyUI_windows_portable\\ComfyUI\\input\\clipboard_images\\clipboard_123.png"
    (by decide)
    [("5", .dict (some "sampler") (some "KSampler") [("seed", "1")])]
    [("8", .dict (some "save") (some "SaveImage") [("filename", "out")])]
    "7" (some "LoadImage") [("image", "old.png")]
    (by decide)

/-- Claim C9: when the template contains no node carrying the sentinel
title (here `load_clipboard_text`), the dispatch logs the missing-node
warning and still submits the payload built from the unmodified
template. -/
theorem missing_node_still_dispatches (md5 : String → String) (T : Template)
    (hT : ∀ e ∈ T, NodeData.metaTitle e.2 ≠ some "load_clipboard_text")
    (tnew : String) (htt : textTruthy tnew = true) (ts : Nat)
    (st : DetectionState) (hnew : st.last_text_content ≠ some tnew) :
    process_clipboard md5 none (some tnew) (.ok T) ts st
      = .ok ({ last_image_hash := none, last_text_content := some tnew },
          [.probeImage, .probeText, .warnNodeNotFound "load_clipboard_text",
           .dispatch ⟨T, "clipboard_script"⟩]) := by
  rw [process_clipboard_new_text md5 tnew T ts st htt hnew]
  simp [patchNodes_of_no_match "load_clipboard_text" "text" tnew T hT]

/-- Claim C9 witness: a concrete template without a `load_clipboard_text`
node still yields a dispatch of the unmodified template plus the
warning. -/
theorem missing_node_still_dispatches_witness :
    process_clipboard (fun b => b) none (some "hello") (.ok
        [("3", .dict (some "encode") (some "CLIPTextEncode") [("text", "x")])])
        7 initState
      = .ok ({ last_image_hash := none, last_text_content := some "hello" },
          [.probeImage, .probeText, .warnNodeNotFound "load_clipboard_text",
           .dispatch ⟨[("3", .dict (some "encode") (some "CLIPTextEncode")
             [("text", "x")])], "clipboard_script"⟩]) :=
  missing_node_still_dispatches (fun b => b)
    [("3", .dict (some "encode") (some "CLIPTextEncode") [("text", "x")])]
    (by decide) "hello" (by decide) 7 initState (by decide)

/-- Claim C10: when two nodes carry the same sentinel title, only the first
one in template iteration order is patched; the later node with that title
is returned unchanged. -/
theorem duplicate_title_first_match_only (ctype : ContentType)
    (content : String) (pre mid post : Template) (nid1 nid2 : String)
    (ct1 ct2 : Option String) (ins1 ins2 : List (String × String))
    (hpre : ∀ e ∈ pre, NodeData.metaTitle e.2 ≠ some (targetTitleOf ctype)) :
    create_api_prompt
        (.ok (pre ++ (nid1, .dict (some (targetTitleOf ctype)) ct1 ins1) ::
          (mid ++ (nid2, .dict (some (targetTitleOf ctype)) ct2 ins2) :: post)))
        content ctype
      = .ok (⟨pre ++ (nid1, .dict (some (targetTitleOf ctype)) ct1
            (setInput ins1 (targetInputOf ctype) (newValueOf content ctype))) ::
          (mid ++ (nid2, .dict (some (targetTitleOf ctype)) ct2 ins2) :: post),
          "clipboard_script"⟩, true) := by
  have h := patchNodes_first_match (targetTitleOf ctype) (targetInputOf ctype)
    (newValueOf content ctype) pre nid1
    (.dict (some (targetTitleOf ctype)) ct1 ins1)
    (mid ++ (nid2, .dict (some (targetTitleOf ctype)) ct2 ins2) :: post)
    hpre rfl
  simp [create_api_prompt, h, NodeData.patchInput]

/-- Claim C10 witness: two nodes titled `load_clipboard_text`; only the
first is patched. -/
theorem duplicate_title_first_match_only_witness :
    create_api_prompt
        (.ok ([] ++ ("3", .dict (some "load_clipboard_text") (some "CLIPTextEncode")
            [("text", "a")]) ::
          ([] ++ ("4", .dict (some "load_clipboard_text") (some "CLIPTextEncode")
            [("text", "b")]) :: [])))
        "hi" .text
      = .ok (⟨[] ++ ("3", .dict (some "load_clipboard_text") (some "CLIPTextEncode")
            (setInput [("text", "a")] (targetInputOf .text)
              (newValueOf "hi" .text))) ::
          ([] ++ ("4", .dict (some "load_clipboard_text") (some "CLIPTextEncode")
            [("text", "b")]) :: []),
          "clipboard_script"⟩, true) :=
  duplicate_title_first_match_only .text "hi" [] [] [] "3" "4"
    (some "CLIPTextEncode") (some "CLIPTextEncode")
    [("text", "a")] [("text", "b")] (by decide)

/-- Claim C2 counterexample: a node titled `load_clipboard_image` whose
`class_type` is not `LoadImage` is patched anyway — the patch is not
skipped and no check takes place, refuting the claimed class-type guard on
the image path. -/
theorem class_type_check_cex :
    create_api_prompt
        (.ok [("7", .dict (some "load_clipboard_image") (some "NotLoadImage")
          [("image", "old.png")])])
        "D:\\x\\clipboard_1.png" .image
      = .ok (⟨[("7", .dict (some "load_clipboard_image") (some "NotLoadImage")
          [("image", "clipboard_images/clipboard_1.png")])],
          "clipboard_script"⟩, true) := by
  decide

/-- Claim C2 (amended): neither dispatch inspects the located node's
declared class type — whatever `class_type` the node carries (matching or
not), the node selected by `_meta.title` is patched, with no warning and no
skip, in both the image and the text case. -/
theorem patch_ignores_class_type (ctype : ContentType) (content : String)
    (pre post : Template) (nid : String) (ct : Option String)
    (ins : List (String × String))
    (hpre : ∀ e ∈ pre, NodeData.metaTitle e.2 ≠ some (targetTitleOf ctype)) :
    create_api_prompt
        (.ok (pre ++ (nid, .dict (some (targetTitleOf ctype)) ct ins) :: post))
        content ctype
      = .ok (⟨pre ++ (nid, .dict (some (targetTitleOf ctype)) ct
            (setInput ins (targetInputOf ctype) (newValueOf content ctype))) :: post,
          "clipboard_script"⟩, true) := by
  have h := patchNodes_first_match (targetTitleOf ctype) (targetInputOf ctype)
    (newValueOf content ctype) pre nid
    (.dict (some (targetTitleOf ctype)) ct ins) post hpre rfl
  simp [create_api_prompt, h, NodeData.patchInput]

/-- Claim C2 witness: the image dispatch patches a node with a wrong class
type. -/
theorem patch_ignores_class_type_witness :
    create_api_prompt
        (.ok ([] ++ ("9", .dict (some (targetTitleOf .image)) (some "WrongType")
          [("image", "old.png")]) :: []))
        "c:\\t\\clipboard_9.png" .image
      = .ok (⟨[] ++ ("9", .dict (some (targetTitleOf .image)) (some "WrongType")
          (setInput [("image", "old.png")] (targetInputOf .image)
            (newValueOf "c:\\t\\clipboard_9.png" .image))) :: [],
          "clipboard_script"⟩, true) :=
  patch_ignores_class_type .image "c:\\t\\clipboard_9.png" [] [] "9"
    (some "WrongType") [("image", "old.png")] (by decide)

/-- Claim C6: after any Empty classification both trackers are null, and
the immediately following New classification — image or text — dispatches
(exactly one submission), regardless of prior history. -/
theorem empty_reset_then_new_succeeds (md5 : String → String)
    (txtE : Option String) (hE : ∀ t, txtE = some t → textTruthy t = false)
    (tmpl0 : Except PyErr Template) (T : Template) (ts0 ts1 ts2 : Nat)
    (st : DetectionState) (img tnew : String)
    (htt : textTruthy tnew = true) :
    ∃ evs0,
      process_clipboard md5 none txtE tmpl0 ts0 st
        = .ok ({ last_image_hash := none, last_text_content := none }, evs0)
      ∧ countDispatch (resultEvents (process_clipboard md5 (some img) none
          (.ok T) ts1 { last_image_hash := none, last_text_content := none })) = 1
      ∧ countDispatch (resultEvents (process_clipboard md5 none (some tnew)
          (.ok T) ts2 { last_image_hash := none, last_text_content := none })) = 1 := by
  obtain ⟨evs0, h0, -⟩ := process_clipboard_empty md5 txtE tmpl0 ts0 st hE
  refine ⟨evs0, h0, ?_, ?_⟩
  · rw [process_clipboard_new_image md5 img none T ts1 _ (by simp)]
    cases hb : (patchNodes "load_clipboard_image" "image"
        (newValueOf (imageSavePath ts1) .image) T).2 <;>
      simp [hb, resultEvents, countDispatch, Event.isDispatch]
  · rw [process_clipboard_new_text md5 tnew T ts2 _ htt (by simp)]
    cases hb : (patchNodes "load_clipboard_text" "text" tnew T).2 <;>
      simp [hb, resultEvents, countDispatch, Event.isDispatch]

/-- Claim C6 witness: an empty poll on a state holding a text value,
followed by a new image and a new text. -/
theorem empty_reset_then_new_succeeds_witness :
    ∃ evs0,
      process_clipboard (fun b => b) none none (.ok []) 0
          { last_image_hash := none, last_text_content := some "old" }
        = .ok ({ last_image_hash := none, last_text_content := none }, evs0)
      ∧ countDispatch (resultEvents (process_clipboard (fun b => b) (some "pix")
          none (.ok []) 1
          { last_image_hash := none, last_text_content := none })) = 1
      ∧ countDispatch (resultEvents (process_clipboard (fun b => b) none
          (some "fresh") (.ok []) 2
          { last_image_hash := none, last_text_content := none })) = 1 :=
  empty_reset_then_new_succeeds (fun b => b) none
    (fun t ht => Option.noConfusion ht) (.ok []) [] 0 1 2
    { last_image_hash := none, last_text_content := some "old" }
    "pix" "fresh" (by decide)

/-- The spec's claimed invariant: exactly one of the two trackers is
non-null. -/
def exactlyOneTracker (st : DetectionState) : Prop :=
  (st.last_image_hash ≠ none ∧ st.last_text_content = none) ∨
  (st.last_image_hash = none ∧ st.last_text_content ≠ none)

/-- Claim C3 counterexample: at initialization (lines 28-29 of the source)
both trackers are null, so "exactly one non-null" fails at process
start. -/
theorem exactly_one_tracker_cex : ¬ exactlyOneTracker initState := by
  unfold exactlyOneTracker
  decide

/-- Claim C3 (amended): at most one of the two trackers is non-null — the
initial state has both null, and every successful tick preserves
at-most-one (a New classification sets one and clears the other; an Empty
classification clears both). -/
theorem at_most_one_tracker :
    (initState.last_image_hash = none ∨ initState.last_text_content = none)
    ∧ ∀ (md5 : String → String) (image text : Option String)
        (tmpl : Except PyErr Template) (ts : Nat) (st st' : DetectionState)
        (evs : List Event),
        (st.last_image_hash = none ∨ st.last_text_content = none) →
        process_clipboard md5 image text tmpl ts st = .ok (st', evs) →
        (st'.last_image_hash = none ∨ st'.last_text_content = none) := by
  refine ⟨Or.inl rfl, ?_⟩
  intro md5 image text tmpl ts st st' evs hst hr
  cases image with
  | some img =>
      by_cases hh : st.last_image_hash = some (md5 img)
      · rw [process_clipboard_same_image md5 img text tmpl ts st hh] at hr
        simp at hr
        obtain ⟨h1, -⟩ := hr
        exact h1 ▸ hst
      · cases tmpl with
        | error e => simp [process_clipboard, hh, create_api_prompt] at hr
        | ok T =>
            rw [process_clipboard_new_image md5 img text T ts st hh] at hr
            simp at hr
            obtain ⟨h1, -⟩ := hr
            exact Or.inr (by rw [← h1])
  | none =>
      cases text with
      | some t =>
          cases htb : textTruthy t with
          | true =>
              by_cases hlt : st.last_text_content = some t
              · simp [process_clipboard, htb, hlt] at hr
                obtain ⟨h1, -⟩ := hr
                exact h1 ▸ hst
              · cases tmpl with
                | error e =>
                    simp [process_clipboard, htb, hlt, create_api_prompt] at hr
                | ok T =>
                    rw [process_clipboard_new_text md5 t T ts st htb hlt] at hr
                    simp at hr
                    obtain ⟨h1, -⟩ := hr
                    exact Or.inl (by rw [← h1])
          | false =>
              obtain ⟨evs1, h1, -⟩ := process_clipboard_empty md5 (some t)
                tmpl ts st
                (fun t' ht' => by injection ht' with h; exact h ▸ htb)
              rw [h1] at hr
              simp at hr
              obtain ⟨h2, -⟩ := hr
              exact Or.inl (by rw [← h2])
      | none =>
          obtain ⟨evs1, h1, -⟩ := process_clipboard_empty md5 none tmpl ts st
            (fun t' ht' => Option.noConfusion ht')
          rw [h1] at hr
          simp at hr
          obtain ⟨h2, -⟩ := hr
          exact Or.inl (by rw [← h2])

/-- Claim C3 witness: a concrete new-image tick from the initial state
lands in a state with at most one tracker set. -/
theorem at_most_one_tracker_witness :
    (({ last_image_hash := some "pix", last_text_content := none } :
        DetectionState).last_image_hash = none ∨
     ({ last_image_hash := some "pix", last_text_content := none } :
        DetectionState).last_text_content = none) :=
  at_most_one_tracker.2 (fun b => b) (some "pix") none (.ok []) 0 initState
    { last_image_hash := some "pix", last_text_content := none }
    [.probeImage, .saveImage (imageSavePath 0),
     .warnNodeNotFound "load_clipboard_image",
     .dispatch ⟨[], "clipboard_script"⟩]
    (Or.inl rfl) (by decide)

/-- Claim C1 counterexample: one tick with a new clipboard image and a
failing template read ends the whole run as `crashed` — the process
terminates instead of aborting only that dispatch. -/
theorem template_read_failure_cex :
    runLoop (fun b => b) [⟨some "pixels", none, .error .templateReadError, 0⟩]
      initState = .crashed .templateReadError := by
  decide

/-- Claim C1 (amended): when a tick triggers a dispatch (new image, or new
truthy text) and reading or parsing the template fails, the exception
propagates out of `process_clipboard`; since `main` catches only
`KeyboardInterrupt`, the process terminates — the remaining ticks never
run, and the script itself logs nothing for this failure. -/
theorem template_read_failure_crashes (md5 : String → String)
    (img tnew : String) (txt : Option String) (ts : Nat)
    (st : DetectionState) (rest : List TickInput)
    (himg : st.last_image_hash ≠ some (md5 img))
    (htxt : textTruthy tnew = true)
    (htxt2 : st.last_text_content ≠ some tnew) :
    runLoop md5 (⟨some img, txt, .error .templateReadError, ts⟩ :: rest) st
      = .crashed .templateReadError
    ∧ runLoop md5 (⟨none, some tnew, .error .templateReadError, ts⟩ :: rest) st
      = .crashed .templateReadError := by
  constructor
  · simp [runLoop, process_clipboard, himg, create_api_prompt]
  · simp [runLoop, process_clipboard, htxt, htxt2, create_api_prompt]

/-- Claim C1 witness: concrete crashing runs for both dispatch kinds. -/
theorem template_read_failure_crashes_witness :
    runLoop (fun b => b)
        [⟨some "px2", none, .error .templateReadError, 5⟩] initState
      = .crashed .templateReadError
    ∧ runLoop (fun b => b)
        [⟨none, some "note", .error .templateReadError, 5⟩] initState
      = .crashed .templateReadError :=
  template_read_failure_crashes (fun b => b) "px2" "note" none 5 initState []
    (by decide) (by decide) (by decide)

end Clipboard
